import Mathlib

/-!
Verification development for the gbbai-azure-ai-search-indexing repository.

The repository is embedded shallowly: each deployment shell script becomes a
Lean function from its argument list to a trace of the external commands it
runs plus an exit code; the Bicep container-app template becomes record
values for its ingress, secrets, environment and parameter validation; the
document-pipeline operations whose Python modules are only witnessed by the
recorded notebook execution logs in the repository are modelled from those
logs and, where the logs are silent, from the specification.
-/

/-- Configuration carried by the az containerapp job create command in the
up_job branch of the readme variant of deployapp.sh. -/
structure ContainerAppJobConfig where
  name : String
  triggerType : String
  cronExpression : String
  replicaTimeout : Nat
  replicaRetryLimit : Nat
  replicaCompletionCount : Nat
  parallelism : Nat
  image : String
  cpu : String
  memory : String
deriving DecidableEq, Repr

/-- Configuration carried by the az containerapp create command in the
up_app branch of the readme variant of deployapp.sh. -/
structure ContainerAppCreateConfig where
  name : String
  cpu : String
  memory : String
  minReplicas : Nat
  maxReplicas : Nat
  scaleRuleHttpConcurrency : Nat
  ingressExternal : Bool
  targetPort : Nat
deriving DecidableEq, Repr

/-- One external command run by a deployment shell script.  Each constructor
transliterates one command line of the scripts, keeping the data the claims
are about (ports, env var names, cron/replica settings, role names). -/
inductive ShellAction where
  | echo (msg : String)
  | exportEnvFromDotEnv
  | dockerBuild (dockerfile image tag : String)
  | dockerRun (hostPort containerPort : Nat) (envVarNames : List String) (image : String)
  | azLoginServicePrincipal
  | azAcrLogin (registry : String)
  | dockerTag (src dst : String)
  | dockerPush (ref : String)
  | azContainerAppUp (name : String) (ingressExternal : Bool) (targetPort : Nat)
  | azDeploymentGroupCreate (templateFile : String)
  | azContainerAppJobCreate (cfg : ContainerAppJobConfig)
  | azContainerAppCreate (cfg : ContainerAppCreateConfig)
  | azRoleAssignmentCreateForJob (role jobName : String)
  | azRoleAssignmentCreateForApp (role appName : String)
deriving DecidableEq, Repr

/-- Outcome of one script invocation: the ordered trace of commands it ran
and the exit status of the process. -/
structure ScriptResult where
  trace : List ShellAction
  exitCode : Nat
deriving DecidableEq, Repr

/-- Text printed by the usage function shared verbatim by all three
deployapp.sh variants. -/
def usageMessage : String := "Usage: $0 \x7bbuild|run|up\x7d"

/-- Trace of the usage function: it echoes the usage line; the accompanying
exit status 1 is recorded in the ScriptResult of each caller. -/
def usageTrace : List ShellAction := [ ShellAction.echo usageMessage ]

/-- Env var names forwarded by docker run in src/pipelines/Indexer/deployapp.sh. -/
def pipelinesRunEnvVarNames : List String :=
  [ "AZURE_DOCUMENT_INTELLIGENCE_ENDPOINT", "AZURE_DOCUMENT_INTELLIGENCE_KEY",
    "AZURE_STORAGE_CONNECTION_STRING", "AZURE_AOAI_API_KEY", "AZURE_AOAI_API_ENDPOINT",
    "AZURE_AOAI_EMBEDDING_DEPLOYMENT_ID", "AZURE_AOAI_API_VERSION",
    "AZURE_AI_SEARCH_SERVICE_ENDPOINT", "AZURE_SEARCH_ADMIN_KEY" ]

/-- Env var names forwarded by docker run in src/app/Indexer/deployapp.sh. -/
def appRunEnvVarNames : List String :=
  [ "AZURE_DOCUMENT_INTELLIGENCE_ENDPOINT", "AZURE_DOCUMENT_INTELLIGENCE_KEY",
    "AZURE_STORAGE_CONNECTION_STRING", "AZURE_OPENAI_API_KEY", "AZURE_OPENAI_ENDPOINT",
    "AZURE_OPENAI_DEPLOYMENT_EMBEDDING", "AZURE_OPENAI_API_VERSION",
    "AZURE_AI_SEARCH_SERVICE_ENDPOINT", "AZURE_SEARCH_ADMIN_KEY" ]

/-- Docker image name set at the top of src/pipelines/Indexer/deployapp.sh. -/
def pipelinesImageName : String := "chunkingandindexingskill"

/-- Bicep template path set at the top of src/pipelines/Indexer/deployapp.sh. -/
def pipelinesTemplateFile : String := "deployment\\container-apps\\index-azure-ai-app.bicep"

/-- Container registry name of src/pipelines/Indexer/deployapp.sh; the
ENVIRONMENT env var is kept symbolic as in the script text. -/
def pipelinesRegistryName : String := "$\x7bENVIRONMENT\x7dcontainerregistryaigbb"

/-- Embedding of src/pipelines/Indexer/deployapp.sh: with no argument it runs
usage (echo plus exit 1); otherwise it exports the .env variables and then
dispatches the case statement on the first argument, whose default branch
runs usage.  External commands are modelled as succeeding, so a completed
branch exits 0. -/
def pipelinesIndexerDeployapp (args : List String) : ScriptResult :=
  match args with
  | [] => ⟨ usageTrace, 1 ⟩
  | cmd :: _ =>
    let pre : List ShellAction := [ ShellAction.exportEnvFromDotEnv ]
    if cmd = "build_container" then
      ⟨ pre ++ [ ShellAction.dockerBuild "pipelines/Indexer/app/Dockerfile" pipelinesImageName "latest" ], 0 ⟩
    else if cmd = "run_container" then
      ⟨ pre ++ [ ShellAction.dockerRun 8000 8000 pipelinesRunEnvVarNames pipelinesImageName ], 0 ⟩
    else if cmd = "push_container" then
      ⟨ pre ++
        [ ShellAction.echo "Logging in to Azure with service principal...",
          ShellAction.echo "az login --service-principal -u $CLIENT_ID -p $CLIENT_SECRET --tenant $TENANT_ID",
          ShellAction.azLoginServicePrincipal,
          ShellAction.echo "Logging in to Azure Container Registry...",
          ShellAction.echo "az acr login --name $containerRegistryName.azurecr.io",
          ShellAction.azAcrLogin (pipelinesRegistryName ++ ".azurecr.io"),
          ShellAction.echo "Tagging Docker image for Azure Container Registry...",
          ShellAction.echo "docker tag $imageName:$imageTag $containerRegistryName.azurecr.io/$imageName:$imageTag",
          ShellAction.dockerTag (pipelinesImageName ++ ":latest")
            (pipelinesRegistryName ++ ".azurecr.io/" ++ pipelinesImageName ++ ":latest"),
          ShellAction.echo "Pushing Docker image to Azure Container Registry...",
          ShellAction.echo "docker push $containerRegistryName.azurecr.io/$imageName:$imageTag",
          ShellAction.dockerPush (pipelinesRegistryName ++ ".azurecr.io/" ++ pipelinesImageName ++ ":latest") ], 0 ⟩
    else if cmd = "up_app" then
      ⟨ pre ++ [ ShellAction.azContainerAppUp "customskill" true 8000 ], 0 ⟩
    else if cmd = "deploy_bicep" then
      ⟨ pre ++ [ ShellAction.azDeploymentGroupCreate pipelinesTemplateFile ], 0 ⟩
    else
      ⟨ pre ++ usageTrace, 1 ⟩

/-- Docker image name set at the top of src/app/Indexer/deployapp.sh. -/
def appImageName : String := "indexingskill"

/-- Container registry name set at the top of src/app/Indexer/deployapp.sh. -/
def appRegistryName : String := "deploymentsdevregistry"

/-- Embedding of src/app/Indexer/deployapp.sh (same shape as the pipelines
variant but without a deploy_bicep branch and without progress echoes in
push_container). -/
def appIndexerDeployapp (args : List String) : ScriptResult :=
  match args with
  | [] => ⟨ usageTrace, 1 ⟩
  | cmd :: _ =>
    let pre : List ShellAction := [ ShellAction.exportEnvFromDotEnv ]
    if cmd = "build_container" then
      ⟨ pre ++ [ ShellAction.dockerBuild "app/Indexer/Dockerfile" appImageName "latest" ], 0 ⟩
    else if cmd = "run_container" then
      ⟨ pre ++ [ ShellAction.dockerRun 8000 8000 appRunEnvVarNames appImageName ], 0 ⟩
    else if cmd = "push_container" then
      ⟨ pre ++
        [ ShellAction.azLoginServicePrincipal,
          ShellAction.azAcrLogin appRegistryName,
          ShellAction.dockerTag (appImageName ++ ":latest")
            (appRegistryName ++ ".azurecr.io/" ++ appImageName ++ ":latest"),
          ShellAction.dockerPush (appRegistryName ++ ".azurecr.io/" ++ appImageName ++ ":latest") ], 0 ⟩
    else if cmd = "up_app" then
      ⟨ pre ++ [ ShellAction.azContainerAppUp "customskill" true 8000 ], 0 ⟩
    else
      ⟨ pre ++ usageTrace, 1 ⟩

/-- Docker image name set at the top of the up_job variant of deployapp.sh
reproduced in src/utils/llm/readme.md. -/
def readmeImageName : String := "indexingapp"

/-- Job configuration of the az containerapp job create command in the
up_job branch of the readme variant. -/
def readmeUpJobConfig : ContainerAppJobConfig :=
  ⟨ "indexing-job", "Schedule", "*/10 * * * *", 1800, 0, 1, 1,
    pipelinesRegistryName ++ ".azurecr.io/prepdocs:1.0", "2", "4Gi" ⟩

/-- Role names granted, in order, to the job identity after the up_job
creation command of the readme variant. -/
def readmeUpJobRoles : List String :=
  [ "Storage Blob Data Contributor", "Cognitive Services OpenAI User",
    "Cognitive Services User", "Search Index Data Contributor",
    "Search Service Contributor" ]

/-- Embedding of the up_job variant of deployapp.sh reproduced in
src/utils/llm/readme.md.  Its case statement has branches build_container,
run_container, push_container, up_job, up_app, and a default branch that is
empty, so an unrecognized subcommand runs nothing after the .env export and
the script exits 0. -/
def upJobReadmeDeployapp (args : List String) : ScriptResult :=
  match args with
  | [] => ⟨ usageTrace, 1 ⟩
  | cmd :: _ =>
    let pre : List ShellAction := [ ShellAction.exportEnvFromDotEnv ]
    if cmd = "build_container" then
      ⟨ pre ++ [ ShellAction.dockerBuild "app/Indexing/Dockerfile" readmeImageName "latest" ], 0 ⟩
    else if cmd = "run_container" then
      ⟨ pre ++ [ ShellAction.dockerRun 8000 8000 pipelinesRunEnvVarNames readmeImageName ], 0 ⟩
    else if cmd = "push_container" then
      ⟨ pre ++
        [ ShellAction.echo "Logging in to Azure with service principal...",
          ShellAction.echo "az login --service-principal -u $CLIENT_ID -p $CLIENT_SECRET --tenant $TENANT_ID",
          ShellAction.azLoginServicePrincipal,
          ShellAction.echo "Logging in to Azure Container Registry...",
          ShellAction.echo "az acr login --name $containerRegistryName.azurecr.io",
          ShellAction.azAcrLogin (pipelinesRegistryName ++ ".azurecr.io"),
          ShellAction.echo "Tagging Docker image for Azure Container Registry...",
          ShellAction.echo "docker tag $imageName:$imageTag $containerRegistryName.azurecr.io/$imageName:$imageTag",
          ShellAction.dockerTag (readmeImageName ++ ":latest")
            (pipelinesRegistryName ++ ".azurecr.io/" ++ readmeImageName ++ ":latest"),
          ShellAction.echo "Pushing Docker image to Azure Container Registry...",
          ShellAction.echo "docker push $containerRegistryName.azurecr.io/$imageName:$imageTag",
          ShellAction.dockerPush (pipelinesRegistryName ++ ".azurecr.io/" ++ readmeImageName ++ ":latest") ], 0 ⟩
    else if cmd = "up_job" then
      ⟨ pre ++
        ( ShellAction.azContainerAppJobCreate readmeUpJobConfig ::
          readmeUpJobRoles.map (fun r => ShellAction.azRoleAssignmentCreateForJob r "indexing-job") ), 0 ⟩
    else if cmd = "up_app" then
      ⟨ pre ++
        [ ShellAction.azContainerAppCreate ⟨ "doc-indexer", "1", "2Gi", 1, 5, 4, true, 8000 ⟩,
          ShellAction.azRoleAssignmentCreateForApp "Contributor" "doc-indexer",
          ShellAction.azRoleAssignmentCreateForApp "Storage Blob Data Contributor" "doc-indexer" ], 0 ⟩
    else
      ⟨ pre, 0 ⟩

/-- Subcommands having a dedicated case branch in src/pipelines/Indexer/deployapp.sh. -/
def pipelinesSubcommands : List String :=
  [ "build_container", "run_container", "push_container", "up_app", "deploy_bicep" ]

/-- Subcommands having a dedicated case branch in src/app/Indexer/deployapp.sh. -/
def appSubcommands : List String :=
  [ "build_container", "run_container", "push_container", "up_app" ]

/-- Subcommands having a dedicated case branch in the readme up_job variant. -/
def readmeSubcommands : List String :=
  [ "build_container", "run_container", "push_container", "up_job", "up_app" ]

/-- Ingress block of the containerApp resource in
src/deployment/container-apps/foundational.bicep. -/
structure BicepIngress where
  external : Bool
  targetPort : Nat
  allowInsecure : Bool
  transport : String
deriving DecidableEq, Repr

/-- Provenance of a secret value in the Bicep secrets list; the only secret
in the template takes its value from the container registry credentials. -/
inductive SecretValueSource where
  | registryPasswordCredential
deriving DecidableEq, Repr

/-- One entry of the configuration.secrets list of the containerApp resource. -/
structure BicepSecret where
  name : String
  source : SecretValueSource
deriving DecidableEq, Repr

/-- How an environment variable of the container template receives its
content: as a plain value or as a reference to a named secret. -/
inductive EnvSetting where
  | plainValue (v : String)
  | secretRef (secretName : String)
deriving DecidableEq, Repr

/-- Boolean test distinguishing plain env values from secret references. -/
def EnvSetting.isPlainValue : EnvSetting → Bool
  | EnvSetting.plainValue _ => true
  | EnvSetting.secretRef _ => false

/-- One entry of the template.containers.env list of the containerApp resource. -/
structure BicepEnvVar where
  name : String
  setting : EnvSetting
deriving DecidableEq, Repr

/-- String parameters of the container-app module of foundational.bicep that
feed the container environment variables. -/
structure ContainerAppParams where
  AZURE_DOCUMENT_INTELLIGENCE_ENDPOINT : String
  AZURE_DOCUMENT_INTELLIGENCE_KEY : String
  AZURE_STORAGE_CONNECTION_STRING : String
  AZURE_AOAI_API_KEY : String
  AZURE_AOAI_API_ENDPOINT : String
  AZURE_AOAI_EMBEDDING_DEPLOYMENT_ID : String
  AZURE_AOAI_API_VERSION : String
  AZURE_AI_SEARCH_SERVICE_ENDPOINT : String
  AZURE_SEARCH_ADMIN_KEY : String

/-- Ingress configuration of the containerApp resource of foundational.bicep:
external, target port 80, insecure traffic disallowed, automatic transport. -/
def containerAppIngress : BicepIngress := ⟨ true, 80, false, "auto" ⟩

/-- The configuration.secrets list of the containerApp resource: a single
entry named container-registry-password whose value is the first registry
credential password. -/
def containerAppSecrets : List BicepSecret :=
  [ ⟨ "container-registry-password", SecretValueSource.registryPasswordCredential ⟩ ]

/-- The template.containers.env list of the containerApp resource: every
entry passes the corresponding parameter through the value field (none uses
a secretRef). -/
def containerAppEnv (p : ContainerAppParams) : List BicepEnvVar :=
  [ ⟨ "AZURE_DOCUMENT_INTELLIGENCE_ENDPOINT", EnvSetting.plainValue p.AZURE_DOCUMENT_INTELLIGENCE_ENDPOINT ⟩,
    ⟨ "AZURE_DOCUMENT_INTELLIGENCE_KEY", EnvSetting.plainValue p.AZURE_DOCUMENT_INTELLIGENCE_KEY ⟩,
    ⟨ "AZURE_STORAGE_CONNECTION_STRING", EnvSetting.plainValue p.AZURE_STORAGE_CONNECTION_STRING ⟩,
    ⟨ "AZURE_AOAI_API_KEY", EnvSetting.plainValue p.AZURE_AOAI_API_KEY ⟩,
    ⟨ "AZURE_AOAI_API_ENDPOINT", EnvSetting.plainValue p.AZURE_AOAI_API_ENDPOINT ⟩,
    ⟨ "AZURE_AOAI_EMBEDDING_DEPLOYMENT_ID", EnvSetting.plainValue p.AZURE_AOAI_EMBEDDING_DEPLOYMENT_ID ⟩,
    ⟨ "AZURE_AOAI_API_VERSION", EnvSetting.plainValue p.AZURE_AOAI_API_VERSION ⟩,
    ⟨ "AZURE_AI_SEARCH_SERVICE_ENDPOINT", EnvSetting.plainValue p.AZURE_AI_SEARCH_SERVICE_ENDPOINT ⟩,
    ⟨ "AZURE_SEARCH_ADMIN_KEY", EnvSetting.plainValue p.AZURE_SEARCH_ADMIN_KEY ⟩ ]

/-- Allowed values of the cpuCore parameter of the first container-app
module of foundational.bicep. -/
def allowedCpuCore : List String :=
  [ "0.25", "0.5", "0.75", "1", "1.25", "1.5", "1.75", "2" ]

/-- Allowed values of the memorySize parameter (GiB) of the first
container-app module of foundational.bicep. -/
def allowedMemorySize : List String :=
  [ "0.5", "1", "1.5", "2", "3", "3.5", "4" ]

/-- Default of the cpuCore parameter of the first container-app module. -/
def cpuCoreDefault : String := "0.25"

/-- Default of the memorySize parameter of the first container-app module. -/
def memorySizeDefault : String := "0.5"

/-- Allowed values of the cpuCore parameter of the catalog container-app
module that follows in the same Bicep source. -/
def catalogAllowedCpuCore : List String :=
  [ "0.25", "0.5", "0.75", "1", "1.25", "1.5", "1.75", "2" ]

/-- Allowed values of the memorySize parameter of the catalog module. -/
def catalogAllowedMemorySize : List String :=
  [ "0.5", "1", "1.5", "2", "3", "3.5", "4" ]

/-- Default of the cpuCore parameter of the catalog module. -/
def catalogCpuCoreDefault : String := "0.5"

/-- Default of the memorySize parameter of the catalog module. -/
def catalogMemorySizeDefault : String := "1"

/-- Numeric denotation of the decimal string literals appearing in the
cpuCore and memorySize allowed lists. -/
def decimalValue : String → ℚ
  | "0.25" => 0.25
  | "0.5" => 0.5
  | "0.75" => 0.75
  | "1" => 1
  | "1.25" => 1.25
  | "1.5" => 1.5
  | "1.75" => 1.75
  | "2" => 2
  | "3" => 3
  | "3.5" => 3.5
  | "4" => 4
  | _ => 0

/-- Log-visible events of the SharePoint loading path, transliterated from
the log lines recorded in the repository notebook (sharepoint_data_extractor.py
and from_sharepoint.py lines of src/unnamed/part_003). -/
inductive SpEvent where
  | gettingSiteId
  | httpErrorForbidden
  | errorRetrievingSiteId
  | failedToRetrieveSiteId
  | failedToRetrieveDriveId
  | errorLoadingFile (fileName : String)
  | downloadedFile (fileName : String)
  | noDocumentsLoaded
deriving DecidableEq, Repr

/-- Outcome of the Graph lookups for one extractor call: the site id and
drive id that resolution would produce, none when the Graph request fails
(the recorded run fails with HTTP 403 on the site lookup). -/
structure GraphResolution where
  siteId : Option String
  driveId : Option String
deriving DecidableEq, Repr

/-- Embedding of get_site_id of sharepoint_data_extractor.py as witnessed by
the recorded log: it announces the lookup and on an HTTP error logs the
error and yields no id. -/
def get_site_id (g : GraphResolution) : List SpEvent × Option String :=
  match g.siteId with
  | some s => ([ SpEvent.gettingSiteId ], some s)
  | none => ([ SpEvent.gettingSiteId, SpEvent.httpErrorForbidden, SpEvent.errorRetrievingSiteId ], none)

/-- Embedding of get_site_and_drive_ids: resolves the site id then the drive
id; failure of either is logged and yields no id pair. -/
def get_site_and_drive_ids (g : GraphResolution) : List SpEvent × Option (String × String) :=
  match get_site_id g with
  | (ev, none) => (ev ++ [ SpEvent.failedToRetrieveSiteId ], none)
  | (ev, some s) =>
    match g.driveId with
    | some d => (ev, some (s, d))
    | none => (ev ++ [ SpEvent.failedToRetrieveDriveId ], none)

/-- Loading of one named file inside load_documents of from_sharepoint.py as
witnessed by the recorded log: the site and drive ids are resolved for this
file, and when they are missing the per-file error is logged and the file is
skipped. -/
def loadOneSharePointFile (g : GraphResolution) (f : String) : List SpEvent × Option String :=
  match get_site_and_drive_ids g with
  | (ev, some _) => (ev ++ [ SpEvent.downloadedFile f ], some f)
  | (ev, none) => (ev ++ [ SpEvent.errorLoadingFile f ], none)

/-- Per-file loop of load_documents over the given file names, accumulating
the logged events and the successfully loaded documents in order. -/
def load_documents_loop (g : GraphResolution) : List String → List SpEvent × List String
  | [] => ([], [])
  | f :: fs =>
    let r := loadOneSharePointFile g f
    let rest := load_documents_loop g fs
    (r.1 ++ rest.1, match r.2 with | some d => d :: rest.2 | none => rest.2)

/-- Embedding of load_documents of from_sharepoint.py: runs the per-file
loop and, when no document was loaded, logs the closing message recorded at
from_sharepoint.py line 246 of the notebook log. -/
def load_documents (g : GraphResolution) (fileNames : List String) : List SpEvent × List String :=
  let r := load_documents_loop g fileNames
  (r.1 ++ (if r.2.isEmpty then [ SpEvent.noDocumentsLoaded ] else []), r.2)

/-- Result of one orchestrator SharePoint call: the logged events, the
loaded documents handed to the splitter, and whether an exception escaped
the call. -/
structure SharePointCallResult where
  events : List SpEvent
  documents : List String
  raised : Bool
deriving DecidableEq, Repr

/-- Embedding of load_files_and_split_into_chunks_from_sharepoint of the
orchestrator as witnessed by the recorded log: it delegates to
load_documents, every per-file failure is caught and logged there, and no
exception escapes the call (the recorded 403 run continues into the splitter
with zero documents). -/
def load_files_and_split_into_chunks_from_sharepoint (g : GraphResolution)
    (fileNames : List String) : SharePointCallResult :=
  let r := load_documents g fileNames
  ⟨ r.1, r.2, false ⟩

/-- Message logged when index_text_embeddings starts, with the chunk count. -/
def initiatedMessage (n : Nat) : String :=
  "Embedding and indexing initiated for " ++ toString n ++ " text chunks."

/-- Message logged when index_text_embeddings completes, with the chunk count. -/
def completedMessage (n : Nat) : String :=
  "Embedding and indexing completed for " ++ toString n ++ " text chunks."

/-- Remote services behind index_text_embeddings: whether the embedding
calls and the batched upsert succeed. -/
structure EmbeddingBackend where
  embedOk : Bool
  upsertOk : Bool
deriving DecidableEq, Repr

/-- Result of one index_text_embeddings call: its log lines and the boolean
success flag it returns. -/
structure IndexingCallResult where
  logs : List String
  success : Bool
deriving DecidableEq, Repr

/-- Modelled from the spec: index_text_embeddings of ai_search_indexing.py is
absent from the sources; per the specification it computes one embedding per
chunk, issues a single batched upsert, returns a boolean success flag, logs
the initiated/completed messages with the chunk count, treats a zero-chunk
input as a logged no-op success, and yields false when the embedding calls
or the upsert fail.  The zero-chunk branch matches the recorded notebook log
(initiated/completed for 0 text chunks, result True). -/
def index_text_embeddings (b : EmbeddingBackend) (chunks : List String) : IndexingCallResult :=
  let n := chunks.length
  if n = 0 then
    ⟨ [ initiatedMessage n, completedMessage n ], true ⟩
  else if b.embedOk && b.upsertOk then
    ⟨ [ initiatedMessage n, completedMessage n ], true ⟩
  else
    ⟨ [ initiatedMessage n ], false ⟩

/-- Log-visible events of the blob-sourced document load path of
from_blob.py, as witnessed by the recorded notebook log. -/
inductive BlobLoadEvent where
  | downloadedBlobToTempFile
  | loadedWithFormatLoader
  | loadFailed
  | deletedTemporaryFile
deriving DecidableEq, Repr

/-- Result of loading one blob-sourced document: the events of the load and
the document text when the load succeeded. -/
structure BlobLoadResult where
  events : List BlobLoadEvent
  document : Option String
deriving DecidableEq, Repr

/-- Modelled from the spec: load_document_from_bytes of from_blob.py is
absent from the sources; per the specification a blob source is downloaded
to a local temporary file, loaded with the format loader, and the temporary
file is deleted on every exit path, success or failure (the recorded log
witnesses the deletion on the success path at from_blob.py line 132). -/
def load_document_from_bytes (loaderOk : Bool) (source : String) : BlobLoadResult :=
  let body : List BlobLoadEvent × Option String :=
    if loaderOk then ([ BlobLoadEvent.loadedWithFormatLoader ], some source)
    else ([ BlobLoadEvent.loadFailed ], none)
  ⟨ BlobLoadEvent.downloadedBlobToTempFile :: (body.1 ++ [ BlobLoadEvent.deletedTemporaryFile ]), body.2 ⟩

/-- The 11 section headings detected for the reference manual document,
transliterated from the by_title.py log line of the recorded notebook run. -/
def referenceManualHeadings : List String :=
  [ "## Scope of Manual", "## Conventions Used in this Manual", "## Description",
    "## Specifications", "## Related Documents", "### Table 1-2. Specifications",
    "### Communication Protocol", "#### Input Signal", "### Output Signal",
    "#### Table 1-2. Specifications (continued)", "##### Connections" ]

/-- Log-visible events of the title-based splitter of by_title.py. -/
inductive ByTitleLogEvent where
  | sectionHeadings (headings : List String)
  | numberOfChunks (n : Nat)
  | processedChunk (i total : Nat)
  | processedDocument (i total : Nat)
deriving DecidableEq, Repr

/-- The by_title.py events of the recorded reference-manual run, in order:
split_text_by_headings logs the heading list and a chunk count of 13, then
combine_chunks logs processing of chunks 1 through 13 of 13, then
split_documents_in_chunks_from_documents logs document 1 of 1. -/
def byTitleReferenceRunLog : List ByTitleLogEvent :=
  [ ByTitleLogEvent.sectionHeadings referenceManualHeadings,
    ByTitleLogEvent.numberOfChunks 13 ] ++
  (List.range 13).map (fun i => ByTitleLogEvent.processedChunk (i + 1) 13) ++
  [ ByTitleLogEvent.processedDocument 1 1 ]

/-- Chunk count of the index_text_embeddings call issued on the output of
the reference-manual by_title run in the next notebook cell, which logged
initiated/completed for 7 text chunks. -/
def byTitleReferenceRunIndexedChunkCount : Nat := 7

/-- Claim C1 (counterexample): the claim that every deployment script prints
a usage line and exits 1 on an unknown subcommand fails on the up_job readme
variant, whose default case branch is empty: invoked with the unknown
subcommand frobnicate it runs only the .env export and exits 0, printing
nothing. -/
theorem C1_counterexample :
    (upJobReadmeDeployapp [ "frobnicate" ]).exitCode = 0 ∧
    (upJobReadmeDeployapp [ "frobnicate" ]).trace = [ ShellAction.exportEnvFromDotEnv ] := by
  decide

/-- Claim C1 (amended): the pipelines and app Indexer deployapp.sh scripts
print the usage line and exit 1 both when the subcommand is missing and when
it is not one of their accepted subcommands; the up_job readme variant does
so only when the subcommand is missing, while an unrecognized subcommand
there runs nothing after the .env export and exits 0. -/
theorem C1_usage_on_bad_subcommand :
    (pipelinesIndexerDeployapp [] = ⟨ usageTrace, 1 ⟩) ∧
    (∀ cmd rest, cmd ∉ pipelinesSubcommands →
      pipelinesIndexerDeployapp (cmd :: rest) = ⟨ ShellAction.exportEnvFromDotEnv :: usageTrace, 1 ⟩) ∧
    (appIndexerDeployapp [] = ⟨ usageTrace, 1 ⟩) ∧
    (∀ cmd rest, cmd ∉ appSubcommands →
      appIndexerDeployapp (cmd :: rest) = ⟨ ShellAction.exportEnvFromDotEnv :: usageTrace, 1 ⟩) ∧
    (upJobReadmeDeployapp [] = ⟨ usageTrace, 1 ⟩) ∧
    (∀ cmd rest, cmd ∉ readmeSubcommands →
      upJobReadmeDeployapp (cmd :: rest) = ⟨ [ ShellAction.exportEnvFromDotEnv ], 0 ⟩) := by
  refine ⟨ rfl, ?_, rfl, ?_, rfl, ?_ ⟩
  · intro cmd rest h
    simp only [pipelinesSubcommands, List.mem_cons, List.not_mem_nil, or_false, not_or] at h
    obtain ⟨ h1, h2, h3, h4, h5 ⟩ := h
    simp [pipelinesIndexerDeployapp, h1, h2, h3, h4, h5]
  · intro cmd rest h
    simp only [appSubcommands, List.mem_cons, List.not_mem_nil, or_false, not_or] at h
    obtain ⟨ h1, h2, h3, h4 ⟩ := h
    simp [appIndexerDeployapp, h1, h2, h3, h4]
  · intro cmd rest h
    simp only [readmeSubcommands, List.mem_cons, List.not_mem_nil, or_false, not_or] at h
    obtain ⟨ h1, h2, h3, h4, h5 ⟩ := h
    simp [upJobReadmeDeployapp, h1, h2, h3, h4, h5]

/-- Claim C1 witness: the amended statement applied to the concrete unknown
subcommand bogus for each of the three scripts. -/
theorem C1_usage_on_bad_subcommand_witness :
    pipelinesIndexerDeployapp [ "bogus" ] = ⟨ ShellAction.exportEnvFromDotEnv :: usageTrace, 1 ⟩ ∧
    appIndexerDeployapp [ "bogus" ] = ⟨ ShellAction.exportEnvFromDotEnv :: usageTrace, 1 ⟩ ∧
    upJobReadmeDeployapp [ "bogus" ] = ⟨ [ ShellAction.exportEnvFromDotEnv ], 0 ⟩ :=
  ⟨ C1_usage_on_bad_subcommand.2.1 "bogus" [] (by decide),
    C1_usage_on_bad_subcommand.2.2.2.1 "bogus" [] (by decide),
    C1_usage_on_bad_subcommand.2.2.2.2.2 "bogus" [] (by decide) ⟩

/-- Claim C10: every deployment script, on every invocation with at least
one argument, exports the .env variables as its first action, before the
case dispatch on the subcommand; in particular the build_container branch of
each script runs the export first and then its docker build. -/
theorem C10_dotenv_export_before_dispatch :
    (∀ cmd rest, (pipelinesIndexerDeployapp (cmd :: rest)).trace.head? = some ShellAction.exportEnvFromDotEnv) ∧
    (∀ cmd rest, (appIndexerDeployapp (cmd :: rest)).trace.head? = some ShellAction.exportEnvFromDotEnv) ∧
    (∀ cmd rest, (upJobReadmeDeployapp (cmd :: rest)).trace.head? = some ShellAction.exportEnvFromDotEnv) ∧
    pipelinesIndexerDeployapp [ "build_container" ] =
      ⟨ [ ShellAction.exportEnvFromDotEnv,
          ShellAction.dockerBuild "pipelines/Indexer/app/Dockerfile" pipelinesImageName "latest" ], 0 ⟩ ∧
    appIndexerDeployapp [ "build_container" ] =
      ⟨ [ ShellAction.exportEnvFromDotEnv,
          ShellAction.dockerBuild "app/Indexer/Dockerfile" appImageName "latest" ], 0 ⟩ ∧
    upJobReadmeDeployapp [ "build_container" ] =
      ⟨ [ ShellAction.exportEnvFromDotEnv,
          ShellAction.dockerBuild "app/Indexing/Dockerfile" readmeImageName "latest" ], 0 ⟩ := by
  refine ⟨ ?_, ?_, ?_, by decide, by decide, by decide ⟩ <;>
    · intro cmd rest
      simp only [pipelinesIndexerDeployapp, appIndexerDeployapp, upJobReadmeDeployapp]
      split_ifs <;> rfl

/-- Claim C4: the run_container branch of both Indexer deployapp.sh scripts
maps host port 8000 to container port 8000; the pipelines up_app branch
targets container port 8000 behind external ingress; and the containerApp
resource of foundational.bicep exposes the app behind managed external
ingress on target port 80. -/
theorem C4_service_ports :
    pipelinesIndexerDeployapp [ "run_container" ] =
      ⟨ [ ShellAction.exportEnvFromDotEnv,
          ShellAction.dockerRun 8000 8000 pipelinesRunEnvVarNames pipelinesImageName ], 0 ⟩ ∧
    appIndexerDeployapp [ "run_container" ] =
      ⟨ [ ShellAction.exportEnvFromDotEnv,
          ShellAction.dockerRun 8000 8000 appRunEnvVarNames appImageName ], 0 ⟩ ∧
    pipelinesIndexerDeployapp [ "up_app" ] =
      ⟨ [ ShellAction.exportEnvFromDotEnv,
          ShellAction.azContainerAppUp "customskill" true 8000 ], 0 ⟩ ∧
    containerAppIngress.external = true ∧
    containerAppIngress.targetPort = 80 := by
  decide

/-- Claim C5: the up_job branch of the readme deployapp.sh variant creates a
scheduled container-app job with cron trigger every ten minutes, replica
timeout 1800 seconds, retry limit 0, completion count 1 and parallelism 1,
and afterwards grants exactly the five listed roles, in order, to the
system-assigned identity of the indexing-job. -/
theorem C5_up_job_schedule_and_roles :
    upJobReadmeDeployapp [ "up_job" ] =
      ⟨ [ ShellAction.exportEnvFromDotEnv,
          ShellAction.azContainerAppJobCreate
            ⟨ "indexing-job", "Schedule", "*/10 * * * *", 1800, 0, 1, 1,
              pipelinesRegistryName ++ ".azurecr.io/prepdocs:1.0", "2", "4Gi" ⟩,
          ShellAction.azRoleAssignmentCreateForJob "Storage Blob Data Contributor" "indexing-job",
          ShellAction.azRoleAssignmentCreateForJob "Cognitive Services OpenAI User" "indexing-job",
          ShellAction.azRoleAssignmentCreateForJob "Cognitive Services User" "indexing-job",
          ShellAction.azRoleAssignmentCreateForJob "Search Index Data Contributor" "indexing-job",
          ShellAction.azRoleAssignmentCreateForJob "Search Service Contributor" "indexing-job" ], 0 ⟩ := by
  decide

/-- Claim C7: both container-app modules of foundational.bicep accept the
cpuCore parameter exactly from the eight listed core counts and the
memorySize parameter exactly from the seven listed GiB values, and the
nominal 2:1 memory-to-CPU ratio stated in the parameter descriptions holds
for the declared defaults of both modules. -/
theorem C7_cpu_memory_allowlists :
    (∀ s : String, s ∈ allowedCpuCore ↔
      (s = "0.25" ∨ s = "0.5" ∨ s = "0.75" ∨ s = "1" ∨ s = "1.25" ∨ s = "1.5" ∨ s = "1.75" ∨ s = "2")) ∧
    (∀ s : String, s ∈ allowedMemorySize ↔
      (s = "0.5" ∨ s = "1" ∨ s = "1.5" ∨ s = "2" ∨ s = "3" ∨ s = "3.5" ∨ s = "4")) ∧
    catalogAllowedCpuCore = allowedCpuCore ∧
    catalogAllowedMemorySize = allowedMemorySize ∧
    decimalValue memorySizeDefault = 2 * decimalValue cpuCoreDefault ∧
    decimalValue catalogMemorySizeDefault = 2 * decimalValue catalogCpuCoreDefault := by
  refine ⟨ ?_, ?_, rfl, rfl,
    by norm_num [decimalValue, memorySizeDefault, cpuCoreDefault],
    by norm_num [decimalValue, catalogMemorySizeDefault, catalogCpuCoreDefault] ⟩
  · intro s
    simp [allowedCpuCore]
  · intro s
    simp [allowedMemorySize]

/-- Claim C9: the only secret of the containerApp resource is the
container-registry password, and every credential parameter (Document
Intelligence key, storage connection string, Azure OpenAI API key, Search
admin key) reaches the container environment as a plain value entry, with no
environment entry using a secret reference. -/
theorem C9_secrets_and_plaintext_env :
    containerAppSecrets =
      [ ⟨ "container-registry-password", SecretValueSource.registryPasswordCredential ⟩ ] ∧
    (∀ p : ContainerAppParams,
      ((containerAppEnv p).all (fun e => e.setting.isPlainValue)) = true ∧
      (⟨ "AZURE_DOCUMENT_INTELLIGENCE_KEY", EnvSetting.plainValue p.AZURE_DOCUMENT_INTELLIGENCE_KEY ⟩ : BicepEnvVar) ∈ containerAppEnv p ∧
      (⟨ "AZURE_STORAGE_CONNECTION_STRING", EnvSetting.plainValue p.AZURE_STORAGE_CONNECTION_STRING ⟩ : BicepEnvVar) ∈ containerAppEnv p ∧
      (⟨ "AZURE_AOAI_API_KEY", EnvSetting.plainValue p.AZURE_AOAI_API_KEY ⟩ : BicepEnvVar) ∈ containerAppEnv p ∧
      (⟨ "AZURE_SEARCH_ADMIN_KEY", EnvSetting.plainValue p.AZURE_SEARCH_ADMIN_KEY ⟩ : BicepEnvVar) ∈ containerAppEnv p) := by
  refine ⟨ rfl, fun p => ⟨ rfl, ?_, ?_, ?_, ?_ ⟩ ⟩ <;> simp [containerAppEnv]

/-- Number of site-id resolution attempts recorded in a SharePoint event
trace (occurrences of the Getting the Site ID log line). -/
def gettingSiteIdCount : List SpEvent → Nat
  | [] => 0
  | SpEvent.gettingSiteId :: rest => gettingSiteIdCount rest + 1
  | _ :: rest => gettingSiteIdCount rest

/-- Expected event trace of the per-file loop when site-id resolution fails:
for each file, one resolution attempt, the three resolution error lines, and
the per-file load error. -/
def siteFailEvents : List String → List SpEvent
  | [] => []
  | f :: fs =>
    SpEvent.gettingSiteId :: SpEvent.httpErrorForbidden :: SpEvent.errorRetrievingSiteId ::
    SpEvent.failedToRetrieveSiteId :: SpEvent.errorLoadingFile f :: siteFailEvents fs

lemma gettingSiteIdCount_append (l1 l2 : List SpEvent) :
    gettingSiteIdCount (l1 ++ l2) = gettingSiteIdCount l1 + gettingSiteIdCount l2 := by
  induction l1 with
  | nil => simp [gettingSiteIdCount]
  | cons e rest ih =>
    cases e <;> simp [gettingSiteIdCount, ih]
    omega

lemma siteFailEvents_count (files : List String) :
    gettingSiteIdCount (siteFailEvents files) = files.length := by
  induction files with
  | nil => rfl
  | cons f fs ih => simp [siteFailEvents, gettingSiteIdCount, ih]

lemma siteFailEvents_mem (files : List String) (f : String) (hf : f ∈ files) :
    SpEvent.errorLoadingFile f ∈ siteFailEvents files := by
  induction files with
  | nil => cases hf
  | cons x xs ih =>
    rcases List.mem_cons.mp hf with h | h
    · subst h
      simp [siteFailEvents]
    · simp [siteFailEvents, ih h]

lemma loadOneSharePointFile_siteFail (g : GraphResolution) (h : g.siteId = none) (f : String) :
    loadOneSharePointFile g f =
      ([ SpEvent.gettingSiteId, SpEvent.httpErrorForbidden, SpEvent.errorRetrievingSiteId,
         SpEvent.failedToRetrieveSiteId, SpEvent.errorLoadingFile f ], none) := by
  simp [loadOneSharePointFile, get_site_and_drive_ids, get_site_id, h]

lemma load_documents_loop_siteFail (g : GraphResolution) (h : g.siteId = none)
    (files : List String) :
    load_documents_loop g files = (siteFailEvents files, []) := by
  induction files with
  | nil => rfl
  | cons f fs ih =>
    simp [load_documents_loop, loadOneSharePointFile_siteFail g h, ih, siteFailEvents]

lemma load_documents_siteFail (g : GraphResolution) (h : g.siteId = none)
    (files : List String) :
    load_documents g files = (siteFailEvents files ++ [ SpEvent.noDocumentsLoaded ], []) := by
  simp [load_documents, load_documents_loop_siteFail g h]

/-- Claim C2 (counterexample): in the recorded failing configuration (site
id unresolvable, the two notebook file names), the call logs two site-id
resolution attempts, one per file, not exactly one per call. -/
theorem C2_counterexample :
    gettingSiteIdCount (load_files_and_split_into_chunks_from_sharepoint ⟨ none, none ⟩
      [ "testdocx.docx", "autogen.pdf" ]).events = 2 ∧
    ¬ gettingSiteIdCount (load_files_and_split_into_chunks_from_sharepoint ⟨ none, none ⟩
      [ "testdocx.docx", "autogen.pdf" ]).events = 1 := by
  decide

/-- Claim C2 (amended): when site-id resolution fails,
load_files_and_split_into_chunks_from_sharepoint attempts the resolution
once per named file (not once per call), logs a load error for every file,
logs that no documents were loaded, returns zero documents, and lets no
exception escape the call. -/
theorem C2_sharepoint_failure_isolation :
    ∀ (g : GraphResolution) (files : List String), g.siteId = none →
      (load_files_and_split_into_chunks_from_sharepoint g files).documents = [] ∧
      (load_files_and_split_into_chunks_from_sharepoint g files).raised = false ∧
      gettingSiteIdCount (load_files_and_split_into_chunks_from_sharepoint g files).events
        = files.length ∧
      (∀ f ∈ files, SpEvent.errorLoadingFile f ∈
        (load_files_and_split_into_chunks_from_sharepoint g files).events) ∧
      SpEvent.noDocumentsLoaded ∈
        (load_files_and_split_into_chunks_from_sharepoint g files).events := by
  intro g files h
  have hld := load_documents_siteFail g h files
  refine ⟨ ?_, rfl, ?_, ?_, ?_ ⟩
  · simp [load_files_and_split_into_chunks_from_sharepoint, hld]
  · simp [load_files_and_split_into_chunks_from_sharepoint, hld,
      gettingSiteIdCount_append, siteFailEvents_count, gettingSiteIdCount]
  · intro f hf
    simp [load_files_and_split_into_chunks_from_sharepoint, hld]
    exact siteFailEvents_mem files f hf
  · simp [load_files_and_split_into_chunks_from_sharepoint, hld]

/-- Claim C2 witness: the amended statement applied to the recorded run,
with unresolvable site and drive ids and the two notebook file names. -/
theorem C2_sharepoint_failure_isolation_witness :
    (load_files_and_split_into_chunks_from_sharepoint ⟨ none, none ⟩
      [ "testdocx.docx", "autogen.pdf" ]).documents = [] ∧
    (load_files_and_split_into_chunks_from_sharepoint ⟨ none, none ⟩
      [ "testdocx.docx", "autogen.pdf" ]).raised = false ∧
    SpEvent.errorLoadingFile "testdocx.docx" ∈
      (load_files_and_split_into_chunks_from_sharepoint ⟨ none, none ⟩
        [ "testdocx.docx", "autogen.pdf" ]).events ∧
    SpEvent.noDocumentsLoaded ∈
      (load_files_and_split_into_chunks_from_sharepoint ⟨ none, none ⟩
        [ "testdocx.docx", "autogen.pdf" ]).events := by
  have h := C2_sharepoint_failure_isolation ⟨ none, none ⟩
    [ "testdocx.docx", "autogen.pdf" ] rfl
  exact ⟨ h.1, h.2.1, h.2.2.2.1 "testdocx.docx" (by decide), h.2.2.2.2 ⟩

/-- Claim C3: index_text_embeddings always returns a boolean success flag
and logs the initiated message with the exact chunk count first (and the
completed message with the same count whenever it succeeds); a zero-chunk
input is a logged no-op success returning true, not an error. -/
theorem C3_zero_chunks_noop_success :
    ∀ (b : EmbeddingBackend) (chunks : List String),
      (index_text_embeddings b chunks).logs.head? = some (initiatedMessage chunks.length) ∧
      ((index_text_embeddings b chunks).success = true →
        completedMessage chunks.length ∈ (index_text_embeddings b chunks).logs) ∧
      (chunks = [] →
        index_text_embeddings b chunks = ⟨ [ initiatedMessage 0, completedMessage 0 ], true ⟩) := by
  intro b chunks
  unfold index_text_embeddings
  by_cases h0 : chunks.length = 0
  · simp [h0]
  · have hne : chunks ≠ [] := fun hc => h0 (by simp [hc])
    by_cases hb : b.embedOk && b.upsertOk
    · simp [h0, hb, hne]
    · simp [h0, hb, hne]

/-- Claim C3 witness: the statement applied to the empty chunk list with a
backend whose embedding and upsert calls both fail, still yielding the
logged no-op success. -/
theorem C3_zero_chunks_noop_success_witness :
    (index_text_embeddings ⟨ false, false ⟩ []).logs.head? = some (initiatedMessage 0) ∧
    completedMessage 0 ∈ (index_text_embeddings ⟨ false, false ⟩ []).logs ∧
    index_text_embeddings ⟨ false, false ⟩ [] =
      ⟨ [ initiatedMessage 0, completedMessage 0 ], true ⟩ := by
  have h := C3_zero_chunks_noop_success ⟨ false, false ⟩ []
  exact ⟨ h.1, h.2.1 rfl, h.2.2 rfl ⟩

/-- Claim C6: for every source loaded through a temporary local copy, the
temp-file deletion is the last event of the load on both exit paths, the one
where the format loader succeeds and the one where it fails. -/
theorem C6_temp_file_always_deleted :
    ∀ (loaderOk : Bool) (source : String),
      (load_document_from_bytes loaderOk source).events.getLast?
        = some BlobLoadEvent.deletedTemporaryFile ∧
      BlobLoadEvent.deletedTemporaryFile ∈ (load_document_from_bytes loaderOk source).events ∧
      ((load_document_from_bytes loaderOk source).document = some source ↔ loaderOk = true) := by
  intro ok src
  cases ok <;> simp [load_document_from_bytes]

/-- Claim C8 (counterexample): in the recorded reference-manual run the 13
chunks are logged by split_text_by_headings itself, and the call output that
the next cell indexes holds 7 chunks, so the chunk count after the
cutoff-merge step is not 13. -/
theorem C8_counterexample :
    referenceManualHeadings.length = 11 ∧
    ByTitleLogEvent.numberOfChunks 13 ∈ byTitleReferenceRunLog ∧
    byTitleReferenceRunIndexedChunkCount = 7 ∧
    ¬ byTitleReferenceRunIndexedChunkCount = 13 := by
  decide

/-- Claim C8 (amended): for the reference-manual document with the 11
detected headings, split_text_by_headings logs the heading list and a chunk
count of 13 at the heading-split step, the cutoff-merge step processes those
13 sections one by one, and the final output of the call, indexed by the
following cell, holds 7 chunks. -/
theorem C8_by_title_reference_run :
    byTitleReferenceRunLog =
      [ ByTitleLogEvent.sectionHeadings referenceManualHeadings,
        ByTitleLogEvent.numberOfChunks 13,
        ByTitleLogEvent.processedChunk 1 13, ByTitleLogEvent.processedChunk 2 13,
        ByTitleLogEvent.processedChunk 3 13, ByTitleLogEvent.processedChunk 4 13,
        ByTitleLogEvent.processedChunk 5 13, ByTitleLogEvent.processedChunk 6 13,
        ByTitleLogEvent.processedChunk 7 13, ByTitleLogEvent.processedChunk 8 13,
        ByTitleLogEvent.processedChunk 9 13, ByTitleLogEvent.processedChunk 10 13,
        ByTitleLogEvent.processedChunk 11 13, ByTitleLogEvent.processedChunk 12 13,
        ByTitleLogEvent.processedChunk 13 13,
        ByTitleLogEvent.processedDocument 1 1 ] ∧
    referenceManualHeadings.length = 11 ∧
    byTitleReferenceRunIndexedChunkCount = 7 := by
  decide
